import Mathlib

/-!
Verification of the Quizify quiz-attempt session engine (src/src/App.jsx).

The relevant parts of the React application are shallowly embedded as pure
Lean functions and an explicit state machine.  Click handlers come from the
latest committed render and read the current component state; the interval
callback, installed once by an effect with an empty dependency array,
permanently closes over the FIRST render's `handleSubmit` — whose captured
`submitting`, `answers`, `quiz` and `timeRemaining` are the initial values —
and is modelled accordingly (see `staleSubmitStart`).  Each JavaScript
number that the code uses as an integer is modelled as `Int` (JavaScript
`null` flowing into a numeric position is modelled with `Option`, mirroring
the coercion behaviour where it matters).  Fractional arithmetic in the
score display (`Math.round(c / n * 100)`) is modelled over `ℚ`.
-/

namespace Quizify

/-! ## Data model (shapes of the JSON objects the component consumes) -/

/-- An option of a multiple-choice question (`question.options[i]`). -/
structure QOption where
  id : Int
  optionText : String
deriving DecidableEq, Repr

/-- A question of a quiz (`quiz.questions[i]`). -/
structure Question where
  id : Int
  questionText : String
  type : String
  options : List QOption
deriving DecidableEq, Repr

/-- A quiz as delivered by `GET /api/quiz/{id}` and consumed by `QuizAttempt`. -/
structure Quiz where
  id : Int
  title : String
  timeLimitMinutes : Int
  questions : List Question
deriving DecidableEq, Repr

/-- A scoreboard / results row as delivered by the attempts endpoints and
consumed by the `QuizList` leaderboard modal and the `AdminPanel` results
table. -/
structure ScoreboardEntry where
  id : Int
  userName : String
  correctAnswers : Int
  totalQuestions : Int
  score : Int
  timeTakenSeconds : Int
deriving DecidableEq, Repr

/-- The value stored per question by `handleAnswerSelect`:
`{ selectedOptionId, textAnswer }`, each possibly `null`. -/
structure StoredAnswer where
  selectedOptionId : Option Int
  textAnswer : Option String
deriving DecidableEq, Repr

/-- One element of the `submissionAnswers` array built by `handleSubmit`:
`{ questionId: Number(qId), selectedOptionId: ans.selectedOptionId,
textAnswer: ans.textAnswer }`. -/
structure SubmissionAnswer where
  questionId : Int
  selectedOptionId : Option Int
  textAnswer : Option String
deriving DecidableEq, Repr

/-! ## Score display (`getScoreCard`, App.jsx lines 302-328, and the
`AdminPanel` results row, lines 1212-1220) -/

/-- JavaScript `Math.round` on the exact rational value: round half toward
positive infinity, i.e. `⌊x + 1/2⌋`. -/
def jsMathRound (x : ℚ) : ℤ :=
  ⌊x + 1 / 2⌋

/-- `Math.round(attempt.correctAnswers / attempt.totalQuestions * 100)` —
the percentage displayed by `getScoreCard` and by the admin results row. -/
def getScoreCardPercentage (correctAnswers totalQuestions : ℤ) : ℤ :=
  jsMathRound ((correctAnswers : ℚ) / (totalQuestions : ℚ) * 100)

/-- `attempt.totalQuestions - attempt.correctAnswers` — the displayed
incorrect count. -/
def displayedIncorrect (correctAnswers totalQuestions : ℤ) : ℤ :=
  totalQuestions - correctAnswers

/-- Modelled from the spec's words (for comparison with the code-derived
`getScoreCardPercentage`): round-half-up of `correctAnswers / totalQuestions
× 100`. -/
def specRoundHalfUp (x : ℚ) : ℤ :=
  ⌊x + 1 / 2⌋

/-! ## Leaderboard rendering (`QuizList` scoreboard modal, lines 595-607)
and admin results ordering (`showResults`, lines 830-842) -/

/-- A rendered row of the scoreboard modal: the rank badge `#{index + 1}`,
the player name and the displayed score `{a.score}%`. -/
structure RankedRow where
  rank : Nat
  userName : String
  displayedScore : Int
deriving DecidableEq, Repr

/-- `scoreboardData.map((a, index) => ...)` — the scoreboard modal assigns
rank `index + 1` in delivered order and displays `a.score` unchanged; no
sorting is applied anywhere between the fetch and this map. -/
def renderScoreboard (entries : List ScoreboardEntry) : List RankedRow :=
  entries.enum.map fun p => ⟨p.1 + 1, p.2.userName, p.2.score⟩

/-- The order relation realised by the admin comparator
`(a, b) => b.correctAnswers - a.correctAnswers`: `a` sorts no later than `b`
iff `b.correctAnswers ≤ a.correctAnswers`. -/
def caDescR (a b : ScoreboardEntry) : Prop :=
  b.correctAnswers ≤ a.correctAnswers

instance : DecidableRel caDescR := fun a b =>
  inferInstanceAs (Decidable (b.correctAnswers ≤ a.correctAnswers))

instance : IsTotal ScoreboardEntry caDescR :=
  ⟨fun a b => Int.le_total b.correctAnswers a.correctAnswers⟩

instance : IsTrans ScoreboardEntry caDescR :=
  ⟨fun _ _ _ hab hbc => le_trans hbc hab⟩

/-- `data.sort((a, b) => b.correctAnswers - a.correctAnswers)` in
`showResults`: a stable sort in descending order of `correctAnswers`
(ECMAScript `Array.prototype.sort` is stable; any stable sort realises the
same output list, here given by insertion sort). -/
def showResultsSort (data : List ScoreboardEntry) : List ScoreboardEntry :=
  List.insertionSort caDescR data

/-! ## Answer store (`handleAnswerSelect`, lines 656-658, and the
`submissionAnswers` mapping in `handleSubmit`, lines 664-668).  The
component state `answers` is a plain object keyed by question id; it is
modelled as an association list where updating an existing key replaces its
value in place and a fresh key is appended. -/

/-- `setAnswers(prev => ({ ...prev, [questionId]: { selectedOptionId,
textAnswer } }))` — insert or overwrite the entry for `questionId`. -/
def setAnswer (questionId : Int) (v : StoredAnswer) :
    List (Int × StoredAnswer) → List (Int × StoredAnswer)
  | [] => [(questionId, v)]
  | (k, w) :: t =>
      if k = questionId then (k, v) :: t else (k, w) :: setAnswer questionId v t

/-- `answers[questionId]` — lookup in the answers object. -/
def getAnswer (questionId : Int) : List (Int × StoredAnswer) → Option StoredAnswer
  | [] => none
  | (k, w) :: t => if k = questionId then some w else getAnswer questionId t

/-- `Object.entries(answers).map(([qId, ans]) => ({ questionId: Number(qId),
selectedOptionId: ans.selectedOptionId, textAnswer: ans.textAnswer }))` —
the submission payload built by `handleSubmit`. -/
def toSubmissionAnswers (answers : List (Int × StoredAnswer)) : List SubmissionAnswer :=
  answers.map fun p => ⟨p.1, p.2.selectedOptionId, p.2.textAnswer⟩

/-! ## Question navigation (`QuizAttempt` navigation buttons, lines
770-795).  The Previous button is disabled at index 0; at the last index the
Next button is replaced by the Submit button, so `+1` there is impossible
(a no-op). -/

/-- Effect of clicking Previous: `disabled={currentQuestionIndex === 0}`,
`onClick={() => setCurrentQuestionIndex(i => i - 1)}`. -/
def clickPrevIdx (idx : Int) : Int :=
  if idx = 0 then idx else idx - 1

/-- Effect of attempting Next: the button is rendered only when
`currentQuestionIndex + 1 !== total`; its handler is
`setCurrentQuestionIndex(i => i + 1)`. -/
def clickNextIdx (idx total : Int) : Int :=
  if idx + 1 = total then idx else idx + 1

/-! ## Countdown (the `setInterval` callback of `QuizAttempt`, lines
637-646).  The callback runs the functional update
`prev => prev > 0 ? prev - 1 : (handleSubmit(); clearInterval(interval); 0)`.
`timeRemaining` starts as `null` (`useState(null)`) and JavaScript evaluates
`null > 0` to `false`, so a `null` or non-positive previous value takes the
expiry branch.  Viewed in isolation from the session, the call to
`handleSubmit()` is the expiry signal, counted in `expiries`; `active`
records whether `clearInterval` has been called. -/

structure TimerState where
  remaining : Option Int
  active : Bool
  expiries : Nat
deriving DecidableEq, Repr

/-- One firing of the interval callback (a no-op once the interval has been
cleared, since cleared intervals deliver no further callbacks). -/
def timerTick (s : TimerState) : TimerState :=
  if s.active then
    match s.remaining with
    | some p =>
        if 0 < p then { s with remaining := some (p - 1) }
        else { remaining := some 0, active := false, expiries := s.expiries + 1 }
    | none => { remaining := some 0, active := false, expiries := s.expiries + 1 }
  else s

/-- The timer state after `init` has stored `timeLimitMinutes * 60 = T`
seconds and the interval is running. -/
def timerStart (T : Int) : TimerState :=
  ⟨some T, true, 0⟩

/-- The timer state after `k` one-second callbacks. -/
def timerRun (s : TimerState) (k : Nat) : TimerState :=
  timerTick^[k] s

/-! ## Loading (`QuizAttempt` `init`, lines 625-635).  The guard
`!currentUser || !window.currentQuizId || !window.quizAttemptId` navigates
to the quiz list and returns; otherwise the quiz is fetched.  `apiFetch`
throws on a non-ok response, and `init` has no `try`/`catch`, so a failed
fetch rejects unhandled: neither `setQuiz` nor `navigateTo` runs. -/

structure InitResult where
  navigatedAway : Bool
  quizSet : Option Quiz
  timeSet : Option Int
deriving DecidableEq, Repr

/-- Observable outcome of `init`, given the presence of the three context
values and the outcome of the quiz fetch. -/
def initQuizAttempt (hasUser hasQuizId hasAttemptId : Bool)
    (fetchResult : Except String Quiz) : InitResult :=
  if !hasUser || !hasQuizId || !hasAttemptId then ⟨true, none, none⟩
  else
    match fetchResult with
    | .error _ => ⟨false, none, none⟩
    | .ok q => ⟨false, some q, some (q.timeLimitMinutes * 60)⟩

/-! ## The attempt session as a state machine (`QuizAttempt`, lines
617-798).  One `step` per scheduled callback: a timer tick, a click on a
rendered button, a user answer, the completion of the in-flight submission
request, or the completion of the quiz fetch.  Ghost counters record the
observable effects: `requestsSent` counts `fetch(POST /api/quiz/submit)`
calls, `alerts` counts `alert(...)` calls, and `expirySignals` counts
invocations of `handleSubmit` made by the expiry branch of the interval
callback.  A successful submission runs `navigateTo('user-panel')`, which
unmounts the component; the effect cleanup `() => clearInterval(interval)`
then clears the interval. -/

structure AttemptState where
  quiz : Option Quiz
  currentQuestionIndex : Int
  answers : List (Int × StoredAnswer)
  timeRemaining : Option Int
  submitting : Bool
  intervalActive : Bool
  mounted : Bool
  pending : Bool
  requestsSent : Nat
  alerts : Nat
  expirySignals : Nat
  page : Option String
  lastPayload : Option (List SubmissionAnswer)
  lastElapsed : Option Int
deriving DecidableEq, Repr

/-- The scheduled callbacks that can run against a mounted `QuizAttempt`. -/
inductive Event where
  | tick
  | clickSubmit
  | clickPrev
  | clickNext
  | selectAnswer (questionId : Int) (a : StoredAnswer)
  | response (ok : Bool)
  | fetchOk (q : Quiz)
deriving DecidableEq

/-- Whether the event is the completion of the in-flight submission
round-trip. -/
def Event.isResponse : Event → Bool
  | .response _ => true
  | _ => false

/-- JavaScript numeric coercion of a possibly-`null` value
(`null` coerces to `0` in arithmetic). -/
def jsNum : Option Int → Int
  | none => 0
  | some v => v

/-- The synchronous prefix of `handleSubmit` (lines 660-682), up to the
`await fetch`.  The guard `if (submitting) return` aborts a re-entry.  With
the guard passed, `setSubmitting(true)` runs, the payload and
`elapsedSeconds = Math.ceil(quiz.timeLimitMinutes * 60 - timeRemaining)` are
computed, and the POST is issued.  When `quiz` is still `null`, reading
`quiz.timeLimitMinutes` throws a `TypeError` before any request; the
`catch` alerts and `setSubmitting(false)` restores the flag, all before any
suspension point. -/
def submitStart (s : AttemptState) : AttemptState :=
  if s.submitting then s
  else
    match s.quiz with
    | none => { s with alerts := s.alerts + 1 }
    | some q =>
        { s with
          submitting := true
          pending := true
          requestsSent := s.requestsSent + 1
          lastPayload := some (toSubmissionAnswers s.answers)
          lastElapsed := some (q.timeLimitMinutes * 60 - jsNum s.timeRemaining) }

/-- The expiry branch's invocation of `handleSubmit` (line 641).  The
`useEffect` that installs the interval runs once (empty dependency array),
so the interval callback closes over the FIRST render's `handleSubmit`,
whose captured state is the initial one: `submitting = false`,
`answers = {}`, `quiz = null`, `timeRemaining = null` — while the state
setters it calls update the live component state.  The stale guard check
`if (submitting) return` therefore always passes; `setSubmitting(true)`
runs; the payload is built from the stale empty `answers`; computing
`elapsedSeconds` reads `quiz.timeLimitMinutes` on the stale `null` quiz and
throws a `TypeError` before the `fetch`; the `catch` alerts and
`setSubmitting(false)` resets the live flag — all before any suspension
point.  Net live effect: one alert, `submitting := false`, and no network
request, regardless of the live state. -/
def staleSubmitStart (s : AttemptState) : AttemptState :=
  { s with alerts := s.alerts + 1, submitting := false }

/-- One scheduled callback.  Gating mirrors the rendered UI: before the quiz
has loaded the component renders only the loading placeholder, so no button
or input exists; the submit button is rendered only on the last question and
is `disabled={submitting}`; the Previous button is `disabled` at index 0;
the Next button is absent on the last question.  A cleared interval delivers
no tick, and an unmounted component receives no interaction.  The tick's
expiry branch invokes the stale first-render `handleSubmit`
(`staleSubmitStart`); the click handlers are the latest render's and read
the live state (`submitStart`). -/
def step (s : AttemptState) : Event → AttemptState
  | .tick =>
      if s.intervalActive then
        match s.timeRemaining with
        | some p =>
            if 0 < p then { s with timeRemaining := some (p - 1) }
            else
              let s1 := staleSubmitStart { s with expirySignals := s.expirySignals + 1 }
              { s1 with intervalActive := false, timeRemaining := some 0 }
        | none =>
            let s1 := staleSubmitStart { s with expirySignals := s.expirySignals + 1 }
            { s1 with intervalActive := false, timeRemaining := some 0 }
      else s
  | .clickSubmit =>
      match s.quiz with
      | some q =>
          if s.mounted && decide (s.currentQuestionIndex + 1 = (q.questions.length : Int))
              && !s.submitting then
            submitStart s
          else s
      | none => s
  | .clickPrev =>
      match s.quiz with
      | some _ =>
          if s.mounted then { s with currentQuestionIndex := clickPrevIdx s.currentQuestionIndex }
          else s
      | none => s
  | .clickNext =>
      match s.quiz with
      | some q =>
          if s.mounted then
            { s with currentQuestionIndex :=
                clickNextIdx s.currentQuestionIndex (q.questions.length : Int) }
          else s
      | none => s
  | .selectAnswer questionId a =>
      match s.quiz with
      | some _ =>
          if s.mounted then { s with answers := setAnswer questionId a s.answers }
          else s
      | none => s
  | .response ok =>
      if s.pending then
        if ok then
          { s with
            pending := false
            submitting := false
            mounted := false
            intervalActive := false
            page := some "user-panel" }
        else
          { s with pending := false, submitting := false, alerts := s.alerts + 1 }
      else s
  | .fetchOk q =>
      if s.mounted then
        { s with quiz := some q, timeRemaining := some (q.timeLimitMinutes * 60) }
      else s

/-- A run of the session: the scheduled callbacks applied in order. -/
def run (s : AttemptState) (evs : List Event) : AttemptState :=
  evs.foldl step s

/-- The component state right after mounting: the `useState` initialisers
(`quiz = null`, index `0`, `answers = {}`, `timeRemaining = null`,
`submitting = false`) with the interval already installed by the effect. -/
def initialAttemptState : AttemptState :=
  ⟨none, 0, [], none, false, true, true, false, 0, 0, 0, none, none, none⟩

/-! ## Helper lemmas -/

theorem timerRun_zero (s : TimerState) : timerRun s 0 = s := rfl

theorem timerRun_succ (s : TimerState) (k : Nat) :
    timerRun s (k + 1) = timerTick (timerRun s k) :=
  Function.iterate_succ_apply' timerTick k s

theorem timerTick_inactive (s : TimerState) (h : s.active = false) : timerTick s = s := by
  simp [timerTick, h]

theorem timerTick_pos (p : ℤ) (e : Nat) (hp : 0 < p) :
    timerTick ⟨some p, true, e⟩ = ⟨some (p - 1), true, e⟩ := by
  simp [timerTick, hp]

theorem timerTick_expire_some (p : ℤ) (e : Nat) (hp : ¬0 < p) :
    timerTick ⟨some p, true, e⟩ = ⟨some 0, false, e + 1⟩ := by
  simp [timerTick, hp]

theorem timerTick_expire_none (e : Nat) :
    timerTick ⟨none, true, e⟩ = ⟨some 0, false, e + 1⟩ := by
  simp [timerTick]

theorem timerRun_counting (T : ℕ) (k : ℕ) (hk : k ≤ T) :
    timerRun (timerStart (T : ℤ)) k = ⟨some ((T : ℤ) - (k : ℤ)), true, 0⟩ := by
  induction k with
  | zero => simp [timerRun, timerStart]
  | succ k ih =>
      have hk' : k ≤ T := Nat.le_of_succ_le hk
      rw [timerRun_succ, ih hk']
      have hpos : (0 : ℤ) < (T : ℤ) - (k : ℤ) := by
        have : k < T := Nat.lt_of_succ_le hk
        omega
      rw [timerTick_pos _ _ hpos]
      have harith : (T : ℤ) - (k : ℤ) - 1 = (T : ℤ) - ((k + 1 : ℕ) : ℤ) := by
        push_cast
        omega
      rw [harith]

theorem timerRun_expiry (T : ℕ) :
    timerRun (timerStart (T : ℤ)) (T + 1) = ⟨some 0, false, 1⟩ := by
  rw [timerRun_succ, timerRun_counting T T le_rfl]
  simp [timerTick]

theorem timerRun_stopped (T : ℕ) (j : ℕ) :
    timerRun (timerStart (T : ℤ)) (T + 1 + j) = ⟨some 0, false, 1⟩ := by
  induction j with
  | zero => exact timerRun_expiry T
  | succ j ih =>
      have h : T + 1 + (j + 1) = (T + 1 + j) + 1 := by omega
      rw [h, timerRun_succ, ih, timerTick_inactive]
      rfl

theorem submitStart_of_submitting (s : AttemptState) (hs : s.submitting = true) :
    submitStart s = s := by
  simp [submitStart, hs]

theorem step_clickSubmit_eq (s : AttemptState) (q : Quiz) (hm : s.mounted = true)
    (hq : s.quiz = some q) (hidx : s.currentQuestionIndex + 1 = (q.questions.length : Int))
    (hs : s.submitting = false) :
    step s Event.clickSubmit =
      { s with
        submitting := true
        pending := true
        requestsSent := s.requestsSent + 1
        lastPayload := some (toSubmissionAnswers s.answers)
        lastElapsed := some (q.timeLimitMinutes * 60 - jsNum s.timeRemaining) } := by
  simp [step, hq, hm, hidx, hs, submitStart]

theorem step_tick_expiry_eq (s : AttemptState) (r : Int) (hact : s.intervalActive = true)
    (hr : s.timeRemaining = some r) (hr0 : ¬(0 : Int) < r) :
    step s Event.tick =
      { s with
        expirySignals := s.expirySignals + 1
        alerts := s.alerts + 1
        submitting := false
        intervalActive := false
        timeRemaining := some 0 } := by
  simp [step, hact, hr, hr0, staleSubmitStart]

theorem clickSubmit_noop_of_submitting (s : AttemptState) (hs : s.submitting = true) :
    step s Event.clickSubmit = s := by
  cases hq : s.quiz with
  | none => simp [step, hq]
  | some q => simp [step, hq, hs]


theorem getAnswer_setAnswer_self (q : Int) (v : StoredAnswer)
    (l : List (Int × StoredAnswer)) : getAnswer q (setAnswer q v l) = some v := by
  induction l with
  | nil => simp [setAnswer, getAnswer]
  | cons p t ih =>
      obtain ⟨k, w⟩ := p
      by_cases hk : k = q
      · simp [setAnswer, getAnswer, hk]
      · simp [setAnswer, getAnswer, hk, ih]

theorem keys_setAnswer_of_mem (q : Int) (v : StoredAnswer)
    (l : List (Int × StoredAnswer)) (h : q ∈ l.map Prod.fst) :
    (setAnswer q v l).map Prod.fst = l.map Prod.fst := by
  induction l with
  | nil => simp at h
  | cons p t ih =>
      obtain ⟨k, w⟩ := p
      by_cases hk : k = q
      · simp [setAnswer, hk]
      · have ht : q ∈ t.map Prod.fst := by
          simp only [List.map_cons, List.mem_cons] at h
          exact h.resolve_left (by simpa using Ne.symm hk)
        simp [setAnswer, hk, ih ht]

theorem keys_setAnswer_of_not_mem (q : Int) (v : StoredAnswer)
    (l : List (Int × StoredAnswer)) (h : q ∉ l.map Prod.fst) :
    (setAnswer q v l).map Prod.fst = l.map Prod.fst ++ [q] := by
  induction l with
  | nil => simp [setAnswer]
  | cons p t ih =>
      obtain ⟨k, w⟩ := p
      simp only [List.map_cons, List.mem_cons] at h
      push_neg at h
      have hk : ¬k = q := fun hkq => h.1 hkq.symm
      simp [setAnswer, hk, ih h.2]

theorem mem_keys_setAnswer (q : Int) (v : StoredAnswer)
    (l : List (Int × StoredAnswer)) : q ∈ (setAnswer q v l).map Prod.fst := by
  by_cases h : q ∈ l.map Prod.fst
  · rw [keys_setAnswer_of_mem q v l h]
    exact h
  · rw [keys_setAnswer_of_not_mem q v l h]
    simp

theorem nodup_keys_setAnswer (q : Int) (v : StoredAnswer)
    (l : List (Int × StoredAnswer)) (h : (l.map Prod.fst).Nodup) :
    ((setAnswer q v l).map Prod.fst).Nodup := by
  by_cases hm : q ∈ l.map Prod.fst
  · rw [keys_setAnswer_of_mem q v l hm]
    exact h
  · rw [keys_setAnswer_of_not_mem q v l hm]
    refine List.Nodup.append h (List.nodup_singleton q) ?_
    intro x hx hq
    rw [List.mem_singleton] at hq
    subst hq
    exact hm hx

theorem toSubmissionAnswers_ids (l : List (Int × StoredAnswer)) :
    (toSubmissionAnswers l).map SubmissionAnswer.questionId = l.map Prod.fst := by
  induction l with
  | nil => rfl
  | cons p t ih => simp [toSubmissionAnswers]

theorem renderScoreboard_names_from (n : Nat) (l : List ScoreboardEntry) :
    ((List.enumFrom n l).map
        (fun p => (⟨p.1 + 1, p.2.userName, p.2.score⟩ : RankedRow))).map RankedRow.userName =
      l.map ScoreboardEntry.userName := by
  induction l generalizing n with
  | nil => rfl
  | cons a t ih => simp [List.enumFrom, ih]

theorem renderScoreboard_scores_from (n : Nat) (l : List ScoreboardEntry) :
    ((List.enumFrom n l).map
        (fun p => (⟨p.1 + 1, p.2.userName, p.2.score⟩ : RankedRow))).map RankedRow.displayedScore =
      l.map ScoreboardEntry.score := by
  induction l generalizing n with
  | nil => rfl
  | cons a t ih => simp [List.enumFrom, ih]

theorem renderScoreboard_ranks_from (n : Nat) (l : List ScoreboardEntry) :
    ((List.enumFrom n l).map
        (fun p => (⟨p.1 + 1, p.2.userName, p.2.score⟩ : RankedRow))).map RankedRow.rank =
      List.range' (n + 1) l.length := by
  induction l generalizing n with
  | nil => rfl
  | cons a t ih => simp [List.enumFrom, List.range', ih]

theorem submitStart_intervalActive (s : AttemptState) :
    (submitStart s).intervalActive = s.intervalActive := by
  by_cases hs : s.submitting = true
  · rw [submitStart_of_submitting s hs]
  · cases hq : s.quiz with
    | none => simp [submitStart, hq, hs]
    | some q => simp [submitStart, hq, hs]

/-! ## Concrete fixtures used by counterexamples and witnesses -/

/-- A one-question quiz with a one-minute time limit. -/
def cQuiz : Quiz :=
  ⟨1, "Quiz", 1, [⟨1, "Q1", "TEXT", []⟩]⟩

/-- An in-progress session whose remaining time has already counted down to
zero (the tick that produced 0 does not fire expiry). -/
def subState : AttemptState :=
  ⟨some cQuiz, 0, [], some 0, false, true, true, false, 0, 0, 0, none, none, none⟩

/-- A session whose submission round-trip is in flight: `submitting` is set,
a request has been issued, remaining time is zero, interval still running. -/
def flightState : AttemptState :=
  ⟨some cQuiz, 0, [], some 0, true, true, true, true, 1, 0, 0, none, none, none⟩

/-- Scoreboard entries with scores 80, 95, 95, 60 in delivered order. -/
def lbEntries : List ScoreboardEntry :=
  [⟨1, "C", 8, 10, 80, 100⟩, ⟨2, "A", 9, 10, 95, 100⟩,
   ⟨3, "B", 9, 10, 95, 100⟩, ⟨4, "D", 6, 10, 60, 100⟩]

/-- Two attempts where ordering by `correctAnswers` and ordering by `score`
disagree (the totals differ). -/
def adminEntries : List ScoreboardEntry :=
  [⟨1, "a", 5, 10, 50, 9⟩, ⟨2, "b", 4, 4, 100, 9⟩]

/-- Two tied attempts (equal `correctAnswers`), in delivered order. -/
def tiedEntries : List ScoreboardEntry :=
  [⟨1, "A", 9, 10, 95, 5⟩, ⟨2, "B", 9, 10, 95, 7⟩]

/-! ## Claims -/

/-- C1, counterexample: the claim says that when both triggers fire, the
second is ignored by the single-entry guard and submission is issued
exactly once.  In the code the expiry trigger is never guard-ignored: fired
first (trace [tick, clickSubmit]) it issues no request at all — the stale
first-render handler it invokes throws on the stale `null` quiz and alerts —
and the later manual trigger, far from being ignored, is the one that
issues the submission (requests go 0 to 1 on the second trigger).  Fired
second, during the manual round-trip (trace [clickSubmit, tick]), it is
again not ignored: it alerts and resets the live `submitting` flag
mid-flight, so a further manual click issues a second request while the
first is still outstanding ([clickSubmit, tick, clickSubmit] reaches
`requestsSent = 2`). -/
theorem stale_expiry_handler_counterexample :
    (run subState [Event.tick]).requestsSent = 0
  ∧ (run subState [Event.tick]).alerts = 1
  ∧ (run subState [Event.tick, Event.clickSubmit]).requestsSent = 1
  ∧ (run subState [Event.clickSubmit]).submitting = true
  ∧ (run subState [Event.clickSubmit, Event.tick]).submitting = false
  ∧ (run subState [Event.clickSubmit, Event.tick]).alerts = 1
  ∧ (run subState [Event.clickSubmit, Event.tick, Event.clickSubmit]).requestsSent = 2
  ∧ ¬(run subState [Event.clickSubmit, Event.tick,
      Event.clickSubmit]).requestsSent = 1 :=
  ⟨rfl, rfl, rfl, rfl, rfl, rfl, rfl, by decide⟩

/-- C1, amended: with one manual-submit trigger and one timer-expiry
trigger firing in either order, exactly one request is issued — but not
because a guard ignores the second trigger.  The expiry trigger never
submits at all: the interval callback invokes the stale first-render
handler, whose captured guard reads `false` and which throws on the stale
`null` quiz before reaching the network, alerting and resetting the live
`submitting` flag.  A repeated manual trigger while `submitting` is set is
ignored (disabled button and live guard), but an expiry arriving while the
manual round-trip is in flight resets the flag, re-enabling a further
manual request before the first resolves. -/
theorem single_submission_either_order (s : AttemptState) (q : Quiz) (r : Int)
    (hm : s.mounted = true) (hq : s.quiz = some q)
    (hidx : s.currentQuestionIndex + 1 = (q.questions.length : Int))
    (hsub : s.submitting = false) (hact : s.intervalActive = true)
    (hr : s.timeRemaining = some r) (hr0 : r ≤ 0) :
    (run s [Event.clickSubmit, Event.tick]).requestsSent = s.requestsSent + 1
  ∧ (run s [Event.tick, Event.clickSubmit]).requestsSent = s.requestsSent + 1
  ∧ (step s Event.tick).requestsSent = s.requestsSent
  ∧ (step s Event.tick).alerts = s.alerts + 1
  ∧ (step s Event.tick).submitting = false
  ∧ (run s [Event.clickSubmit, Event.tick]).submitting = false
  ∧ (∀ s2 : AttemptState, s2.submitting = true → step s2 Event.clickSubmit = s2) := by
  have hr0' : ¬(0 : Int) < r := by omega
  have htick := step_tick_expiry_eq s r hact hr hr0'
  have hclick := step_clickSubmit_eq s q hm hq hidx hsub
  have hA1 : (step s Event.clickSubmit).intervalActive = true := by
    rw [hclick]
    exact hact
  have hr1 : (step s Event.clickSubmit).timeRemaining = some r := by
    rw [hclick]
    exact hr
  have hm2 : (step s Event.tick).mounted = true := by
    rw [htick]
    exact hm
  have hq2 : (step s Event.tick).quiz = some q := by
    rw [htick]
    exact hq
  have hidx2 : (step s Event.tick).currentQuestionIndex + 1 = (q.questions.length : Int) := by
    rw [htick]
    exact hidx
  have hsub2 : (step s Event.tick).submitting = false := by
    rw [htick]
  refine ⟨?_, ?_, ?_, ?_, ?_, ?_, clickSubmit_noop_of_submitting⟩
  · show (step (step s Event.clickSubmit) Event.tick).requestsSent = s.requestsSent + 1
    have e1 : (step (step s Event.clickSubmit) Event.tick).requestsSent =
        (step s Event.clickSubmit).requestsSent := by
      rw [step_tick_expiry_eq _ r hA1 hr1 hr0']
    rw [e1, hclick]
  · show (step (step s Event.tick) Event.clickSubmit).requestsSent = s.requestsSent + 1
    have e2 : (step (step s Event.tick) Event.clickSubmit).requestsSent =
        (step s Event.tick).requestsSent + 1 := by
      rw [step_clickSubmit_eq _ q hm2 hq2 hidx2 hsub2]
    rw [e2, htick]
  · rw [htick]
  · rw [htick]
  · rw [htick]
  · show (step (step s Event.clickSubmit) Event.tick).submitting = false
    rw [step_tick_expiry_eq _ r hA1 hr1 hr0']

/-- C1, witness: the either-order behaviour on a concrete ready-to-submit
session with remaining time 0. -/
theorem single_submission_either_order_witness :
    (run subState [Event.clickSubmit, Event.tick]).requestsSent =
      subState.requestsSent + 1
  ∧ (run subState [Event.tick, Event.clickSubmit]).requestsSent =
      subState.requestsSent + 1
  ∧ (step subState Event.tick).requestsSent = subState.requestsSent
  ∧ (step subState Event.tick).alerts = subState.alerts + 1
  ∧ (step subState Event.tick).submitting = false
  ∧ (run subState [Event.clickSubmit, Event.tick]).submitting = false
  ∧ (∀ s2 : AttemptState, s2.submitting = true → step s2 Event.clickSubmit = s2) :=
  single_submission_either_order subState cQuiz 0 rfl rfl (by decide) rfl rfl rfl
    (by decide)

/-- C2, counterexample: a countdown started at T = 1 second has, after
exactly T = 1 ticks, already reached remaining 0 (the transition to 0) but
has fired no expiry; the expiry fires on the next tick. -/
theorem expiry_after_T_ticks_counterexample :
    (timerRun (timerStart 1) 1).remaining = some 0
  ∧ (timerRun (timerStart 1) 1).expiries = 0
  ∧ ¬(timerRun (timerStart 1) 1).expiries = 1
  ∧ (timerRun (timerStart 1) 2).expiries = 1 := by
  refine ⟨by decide, by decide, by decide, by decide⟩

/-- C2, amended: a countdown started at T seconds decreases by exactly 1
per tick while positive (remaining T − k after k ≤ T ticks, so never
negative), stays clamped at 0, and fires the expiry signal exactly once —
on tick T + 1, the first tick that observes remaining 0, not at the
transition to 0 — after which the interval is cleared and every further
tick is a no-op. -/
theorem countdown_behaviour (T : ℕ) :
    (∀ k : ℕ, k ≤ T →
      timerRun (timerStart (T : ℤ)) k = ⟨some ((T : ℤ) - (k : ℤ)), true, 0⟩)
  ∧ timerRun (timerStart (T : ℤ)) (T + 1) = ⟨some 0, false, 1⟩
  ∧ (∀ j : ℕ, timerRun (timerStart (T : ℤ)) (T + 1 + j) = ⟨some 0, false, 1⟩)
  ∧ (∀ (k : ℕ) (r : ℤ), (timerRun (timerStart (T : ℤ)) k).remaining = some r → 0 ≤ r) := by
  refine ⟨fun k hk => timerRun_counting T k hk, timerRun_expiry T,
    fun j => timerRun_stopped T j, ?_⟩
  intro k r hr
  rcases le_or_lt k T with h | h
  · rw [timerRun_counting T k h] at hr
    simp only [TimerState.remaining, Option.some.injEq] at hr
    omega
  · obtain ⟨j, rfl⟩ : ∃ j, k = T + 1 + j := ⟨k - (T + 1), by omega⟩
    rw [timerRun_stopped T j] at hr
    simp only [TimerState.remaining, Option.some.injEq] at hr
    omega

/-- C2, witness: the countdown started at 2 seconds reads 1 after one tick,
0 after two ticks with no expiry yet, fires on tick 3, and is unchanged on
tick 4. -/
theorem countdown_behaviour_witness :
    timerRun (timerStart ((2 : ℕ) : ℤ)) 1 = ⟨some ((2 : ℤ) - (1 : ℤ)), true, 0⟩
  ∧ timerRun (timerStart ((2 : ℕ) : ℤ)) (2 + 1) = ⟨some 0, false, 1⟩
  ∧ timerRun (timerStart ((2 : ℕ) : ℤ)) (2 + 1 + 1) = ⟨some 0, false, 1⟩ :=
  ⟨(countdown_behaviour 2).1 1 (by decide), (countdown_behaviour 2).2.1,
    (countdown_behaviour 2).2.2.1 1⟩

/-- C3, counterexample: leaving IN_PROGRESS through a manual submission does
not stop the timer — the interval is still active while the round-trip is
in flight, and a subsequent tick delivers the expiry signal (invokes the
submit handler) on the session that has already begun submitting. -/
theorem timer_stop_counterexample :
    (run subState [Event.clickSubmit]).submitting = true
  ∧ (run subState [Event.clickSubmit]).intervalActive = true
  ∧ ¬(run subState [Event.clickSubmit]).intervalActive = false
  ∧ (run subState [Event.clickSubmit, Event.tick]).expirySignals = 1 :=
  ⟨rfl, rfl, by decide, rfl⟩

/-- C3, amended: the interval is cleared only by the expiry branch of the
tick callback itself and by the unmount cleanup after a successful
submission navigates away; a manual submission leaves the interval exactly
as it was, so a later tick still delivers the expiry signal to the session
that has begun submitting.  That delivery invokes the stale first-render
submit handler, which issues no network request — it throws on the stale
`null` quiz before the `fetch` — but it alerts and resets the live
`submitting` flag. -/
theorem timer_stop_behaviour :
    (∀ s : AttemptState, (step s Event.clickSubmit).intervalActive = s.intervalActive)
  ∧ (∀ (s : AttemptState) (r : Int), s.intervalActive = true → s.timeRemaining = some r →
      r ≤ 0 → (step s Event.tick).intervalActive = false)
  ∧ (∀ s : AttemptState, s.pending = true →
      (step s (Event.response true)).intervalActive = false)
  ∧ (∀ (s : AttemptState) (r : Int), s.intervalActive = true → s.timeRemaining = some r →
      r ≤ 0 →
        (step s Event.tick).expirySignals = s.expirySignals + 1
      ∧ (step s Event.tick).requestsSent = s.requestsSent
      ∧ (step s Event.tick).alerts = s.alerts + 1
      ∧ (step s Event.tick).submitting = false) := by
  refine ⟨?_, ?_, ?_, ?_⟩
  · intro s
    cases hq : s.quiz with
    | none => simp [step, hq]
    | some q =>
        by_cases hc : (s.mounted &&
            decide (s.currentQuestionIndex + 1 = (q.questions.length : Int)) &&
            !s.submitting) = true
        · simp [step, hq, hc, submitStart_intervalActive]
        · simp [step, hq, hc]
  · intro s r hA hr hr0
    rw [step_tick_expiry_eq s r hA hr (by omega)]
  · intro s hp
    simp [step, hp]
  · intro s r hA hr hr0
    rw [step_tick_expiry_eq s r hA hr (by omega)]
    exact ⟨rfl, rfl, rfl, rfl⟩

/-- C3, witness: instances of the amended behaviour on concrete sessions:
a manual submit leaves the interval running, an expiring tick and a
successful response both clear it, and a tick during an in-flight
submission delivers the expiry signal with an alert and a guard reset but
no request. -/
theorem timer_stop_behaviour_witness :
    (step subState Event.clickSubmit).intervalActive = subState.intervalActive
  ∧ (step flightState Event.tick).intervalActive = false
  ∧ (step flightState (Event.response true)).intervalActive = false
  ∧ ((step flightState Event.tick).expirySignals = flightState.expirySignals + 1
      ∧ (step flightState Event.tick).requestsSent = flightState.requestsSent
      ∧ (step flightState Event.tick).alerts = flightState.alerts + 1
      ∧ (step flightState Event.tick).submitting = false) :=
  ⟨timer_stop_behaviour.1 subState,
   timer_stop_behaviour.2.1 flightState 0 rfl rfl (by decide),
   timer_stop_behaviour.2.2.1 flightState rfl,
   timer_stop_behaviour.2.2.2 flightState 0 rfl rfl (by decide)⟩

/-- C4, counterexample: after a failed submission response the error is
surfaced, but the `submitting` guard is reset to `false` rather than left
set as the claim states. -/
theorem guard_reset_counterexample :
    (step flightState (Event.response false)).alerts = 1
  ∧ (step flightState (Event.response false)).submitting = false
  ∧ ¬(step flightState (Event.response false)).submitting = true :=
  ⟨rfl, rfl, by decide⟩

/-- C4, amended: on a failed submission the session surfaces the error
(alert), performs no navigation and issues no further request at that
moment, but `setSubmitting(false)` runs unconditionally, resetting the
single-entry guard and so permitting a later trigger to re-issue
submission automatically. -/
theorem submission_failure_behaviour (s : AttemptState) (hp : s.pending = true) :
    (step s (Event.response false)).alerts = s.alerts + 1
  ∧ (step s (Event.response false)).mounted = s.mounted
  ∧ (step s (Event.response false)).page = s.page
  ∧ (step s (Event.response false)).requestsSent = s.requestsSent
  ∧ (step s (Event.response false)).submitting = false := by
  simp [step, hp]

/-- C4, witness: the amended failure behaviour on a concrete in-flight
session. -/
theorem submission_failure_behaviour_witness :
    (step flightState (Event.response false)).alerts = flightState.alerts + 1
  ∧ (step flightState (Event.response false)).mounted = flightState.mounted
  ∧ (step flightState (Event.response false)).page = flightState.page
  ∧ (step flightState (Event.response false)).requestsSent = flightState.requestsSent
  ∧ (step flightState (Event.response false)).submitting = false :=
  submission_failure_behaviour flightState rfl

/-- C5, counterexample: on delivered scores [80, 95, 95, 60] the scoreboard
modal displays rank 1 with score 80 — it applies no ordering at all — and
the admin results view orders by `correctAnswers`, not by the delivered
`score` field (here producing [50, 100], not score-descending). -/
theorem leaderboard_order_counterexample :
    (renderScoreboard lbEntries).map RankedRow.displayedScore = [80, 95, 95, 60]
  ∧ ¬(renderScoreboard lbEntries).map RankedRow.displayedScore = [95, 95, 80, 60]
  ∧ (showResultsSort adminEntries).map ScoreboardEntry.score = [50, 100]
  ∧ ¬(showResultsSort adminEntries).map ScoreboardEntry.score = [100, 50] :=
  ⟨rfl, by decide, rfl, by decide⟩

/-- C5, amended: the scoreboard modal does not reorder: it assigns 1-based
consecutive positions in delivered input order and displays the delivered
`score` field without recomputation; separately, the admin results view
sorts descending by `correctAnswers` (not by `score`), stably (tied entries
keep their delivered order) and with no secondary tie-break. -/
theorem leaderboard_rendering (entries : List ScoreboardEntry) :
    (renderScoreboard entries).map RankedRow.userName = entries.map ScoreboardEntry.userName
  ∧ (renderScoreboard entries).map RankedRow.displayedScore = entries.map ScoreboardEntry.score
  ∧ (renderScoreboard entries).map RankedRow.rank = List.range' 1 entries.length
  ∧ (showResultsSort entries).Perm entries
  ∧ List.Sorted caDescR (showResultsSort entries)
  ∧ showResultsSort tiedEntries = tiedEntries :=
  ⟨renderScoreboard_names_from 0 entries, renderScoreboard_scores_from 0 entries,
   renderScoreboard_ranks_from 0 entries, List.perm_insertionSort caDescR entries,
   List.sorted_insertionSort caDescR entries, rfl⟩

/-- C6: the displayed percentage is round-half-up of
`correctAnswers / totalQuestions × 100` and the displayed incorrect count is
`totalQuestions − correctAnswers`; in particular 7 of 10 displays 70 and
3 incorrect, and 1 of 3 displays 33. -/
theorem score_display (c n : ℤ) (_hc : 0 ≤ c) (_hn : 0 < n) :
    getScoreCardPercentage c n = specRoundHalfUp ((c : ℚ) / (n : ℚ) * 100)
  ∧ displayedIncorrect c n = n - c
  ∧ getScoreCardPercentage 7 10 = 70
  ∧ displayedIncorrect 7 10 = 3
  ∧ getScoreCardPercentage 1 3 = 33 := by
  refine ⟨rfl, rfl, ?_, by decide, ?_⟩ <;>
    norm_num [getScoreCardPercentage, jsMathRound]

/-- C6, witness: the score display equalities at 7 correct out of 10. -/
theorem score_display_witness :
    getScoreCardPercentage 7 10 = specRoundHalfUp (((7 : ℤ) : ℚ) / ((10 : ℤ) : ℚ) * 100)
  ∧ displayedIncorrect 7 10 = 10 - 7
  ∧ getScoreCardPercentage 7 10 = 70
  ∧ displayedIncorrect 7 10 = 3
  ∧ getScoreCardPercentage 1 3 = 33 :=
  score_display 7 10 (by decide) (by decide)

/-- C7, counterexample: when the quiz fetch fails during LOADING, the
session does not navigate away — the unhandled rejection leaves it stuck on
the loading screen, contrary to the claim that both failure cases abort and
navigate. -/
theorem load_failure_counterexample :
    initQuizAttempt true true true (Except.error "HTTP 500") = ⟨false, none, none⟩
  ∧ (initQuizAttempt true true true (Except.error "HTTP 500")).navigatedAway = false
  ∧ ¬(initQuizAttempt true true true (Except.error "HTTP 500")).navigatedAway = true :=
  ⟨rfl, rfl, by decide⟩

/-- C7, amended: a missing attempt context (user, quiz id or attempt id)
makes the session navigate away without loading anything; a failed quiz
fetch leaves it in LOADING with nothing set and no navigation; in neither
failure case is a quiz installed, so the session never reaches
IN_PROGRESS — it enters it only when the context is present and the fetch
succeeds. -/
theorem loading_behaviour (hasUser hasQuizId hasAttemptId : Bool)
    (f : Except String Quiz) :
    ((hasUser && hasQuizId && hasAttemptId) = false →
      initQuizAttempt hasUser hasQuizId hasAttemptId f = ⟨true, none, none⟩)
  ∧ (∀ e : String, initQuizAttempt true true true (Except.error e) = ⟨false, none, none⟩)
  ∧ (∀ q : Quiz, initQuizAttempt true true true (Except.ok q) =
      ⟨false, some q, some (q.timeLimitMinutes * 60)⟩)
  ∧ (∀ q : Quiz, (initQuizAttempt hasUser hasQuizId hasAttemptId f).quizSet = some q →
      f = Except.ok q) := by
  refine ⟨?_, fun e => rfl, fun q => rfl, ?_⟩
  · intro h
    cases hasUser <;> cases hasQuizId <;> cases hasAttemptId <;>
      simp_all [initQuizAttempt]
  · intro q hq
    cases hasUser <;> cases hasQuizId <;> cases hasAttemptId <;> cases f <;>
      simp_all [initQuizAttempt]

/-- C7, witness: the loading outcomes at concrete inputs — missing user,
failed fetch, successful fetch. -/
theorem loading_behaviour_witness :
    initQuizAttempt false true true (Except.error "x") = ⟨true, none, none⟩
  ∧ initQuizAttempt true true true (Except.error "x") = ⟨false, none, none⟩
  ∧ initQuizAttempt true true true (Except.ok cQuiz) =
      ⟨false, some cQuiz, some (cQuiz.timeLimitMinutes * 60)⟩ :=
  ⟨(loading_behaviour false true true (Except.error "x")).1 rfl,
   (loading_behaviour true true true (Except.error "x")).2.1 "x",
   (loading_behaviour true true true (Except.ok cQuiz)).2.2.1 cQuiz⟩

/-- C8: with N questions and a current index in [0, N−1], both navigation
clicks keep the index in [0, N−1]; Previous at index 0 and Next at the last
index are no-ops. -/
theorem navigation_bounds (idx total : Int) (h0 : 0 ≤ idx) (h1 : idx < total) :
    (0 ≤ clickPrevIdx idx ∧ clickPrevIdx idx < total)
  ∧ (0 ≤ clickNextIdx idx total ∧ clickNextIdx idx total < total)
  ∧ (idx = 0 → clickPrevIdx idx = idx)
  ∧ (idx = total - 1 → clickNextIdx idx total = idx) := by
  refine ⟨⟨?_, ?_⟩, ⟨?_, ?_⟩, ?_, ?_⟩
  · unfold clickPrevIdx
    split <;> omega
  · unfold clickPrevIdx
    split <;> omega
  · unfold clickNextIdx
    split <;> omega
  · unfold clickNextIdx
    split <;> omega
  · intro h
    simp [clickPrevIdx, h]
  · intro h
    simp [clickNextIdx, show idx + 1 = total from by omega]

/-- C8, witness: navigation bounds at index 0 of a 3-question attempt and
at the last index 2. -/
theorem navigation_bounds_witness :
    ((0 ≤ clickPrevIdx 0 ∧ clickPrevIdx 0 < 3)
      ∧ (0 ≤ clickNextIdx 0 3 ∧ clickNextIdx 0 3 < 3)
      ∧ ((0 : Int) = 0 → clickPrevIdx 0 = 0)
      ∧ ((0 : Int) = 3 - 1 → clickNextIdx 0 3 = 0))
  ∧ ((0 ≤ clickPrevIdx 2 ∧ clickPrevIdx 2 < 3)
      ∧ (0 ≤ clickNextIdx 2 3 ∧ clickNextIdx 2 3 < 3)
      ∧ ((2 : Int) = 0 → clickPrevIdx 2 = 2)
      ∧ ((2 : Int) = 3 - 1 → clickNextIdx 2 3 = 2)) :=
  ⟨navigation_bounds 0 3 (by decide) (by decide),
   navigation_bounds 2 3 (by decide) (by decide)⟩

/-- C9: the answers object holds at most one answer per question id
(uniqueness is preserved by `setAnswer` and the id appears exactly once),
setting the same question twice leaves the last value, and the produced
submission list has exactly one entry per answered question — its
questionIds are exactly the stored keys, its length matches, and no entry
is synthesized for an unanswered question. -/
theorem answer_store_behaviour (l : List (Int × StoredAnswer)) (q : Int)
    (v w : StoredAnswer) (hnd : (l.map Prod.fst).Nodup) :
    getAnswer q (setAnswer q w (setAnswer q v l)) = some w
  ∧ ((setAnswer q v l).map Prod.fst).Nodup
  ∧ ((setAnswer q v l).map Prod.fst).count q = 1
  ∧ (toSubmissionAnswers l).map SubmissionAnswer.questionId = l.map Prod.fst
  ∧ (toSubmissionAnswers l).length = l.length
  ∧ (∀ k : Int, k ∉ l.map Prod.fst → ∀ e ∈ toSubmissionAnswers l, e.questionId ≠ k) := by
  refine ⟨getAnswer_setAnswer_self q w _, nodup_keys_setAnswer q v l hnd,
    List.count_eq_one_of_mem (nodup_keys_setAnswer q v l hnd) (mem_keys_setAnswer q v l),
    toSubmissionAnswers_ids l, by simp [toSubmissionAnswers], ?_⟩
  intro k hk e he heq
  apply hk
  have hmem : e.questionId ∈ (toSubmissionAnswers l).map SubmissionAnswer.questionId :=
    List.mem_map_of_mem _ he
  rw [toSubmissionAnswers_ids l] at hmem
  rwa [heq] at hmem

/-- C9, witness: the answer-store properties on a concrete one-entry store,
overwriting question 2 twice. -/
theorem answer_store_behaviour_witness :
    getAnswer 2 (setAnswer 2 ⟨none, some "b"⟩
        (setAnswer 2 ⟨none, some "a"⟩ [(1, ⟨some 5, none⟩)])) = some ⟨none, some "b"⟩
  ∧ (((setAnswer 2 ⟨none, some "a"⟩ [(1, ⟨some 5, none⟩)]).map Prod.fst)).Nodup
  ∧ (((setAnswer 2 ⟨none, some "a"⟩ [(1, ⟨some 5, none⟩)]).map Prod.fst)).count 2 = 1
  ∧ (toSubmissionAnswers [(1, ⟨some 5, none⟩)]).map SubmissionAnswer.questionId =
      [(1, (⟨some 5, none⟩ : StoredAnswer))].map Prod.fst
  ∧ (toSubmissionAnswers [(1, ⟨some 5, none⟩)]).length =
      [(1, (⟨some 5, none⟩ : StoredAnswer))].length
  ∧ (∀ k : Int, k ∉ [(1, (⟨some 5, none⟩ : StoredAnswer))].map Prod.fst →
      ∀ e ∈ toSubmissionAnswers [(1, ⟨some 5, none⟩)], e.questionId ≠ k) :=
  answer_store_behaviour [(1, ⟨some 5, none⟩)] 2 ⟨none, some "a"⟩ ⟨none, some "b"⟩
    (by decide)

/-- C10: a tick whose previous remaining value is not a positive number —
including the initial `null` before the quiz has loaded — takes the expiry
branch: it invokes the submit handler, clears the interval and stores 0;
in particular the first tick on the freshly mounted component (quiz still
`null`) attempts submission with no quiz loaded, which ends in the alert
path without reaching the network. -/
theorem early_expiry_branch :
    (∀ e : Nat, timerTick ⟨none, true, e⟩ = ⟨some 0, false, e + 1⟩)
  ∧ (∀ (e : Nat) (p : Int), p ≤ 0 → timerTick ⟨some p, true, e⟩ = ⟨some 0, false, e + 1⟩)
  ∧ initialAttemptState.quiz = none
  ∧ (step initialAttemptState Event.tick).expirySignals = 1
  ∧ (step initialAttemptState Event.tick).intervalActive = false
  ∧ (step initialAttemptState Event.tick).timeRemaining = some 0
  ∧ (step initialAttemptState Event.tick).alerts = 1
  ∧ (step initialAttemptState Event.tick).requestsSent = 0 := by
  refine ⟨timerTick_expire_none, ?_, rfl, rfl, rfl, rfl, rfl, rfl⟩
  intro e p hp
  exact timerTick_expire_some p e (by omega)

/-- C10, witness: the expiry branch at the concrete non-positive remaining
value 0. -/
theorem early_expiry_branch_witness :
    timerTick ⟨some 0, true, 0⟩ = ⟨some 0, false, 0 + 1⟩ :=
  early_expiry_branch.2.1 0 0 (by decide)

end Quizify
